import Mathlib

/-!
# Verification of the Desktop Commander command-mediation core

Shallow embedding of the security, mediation and history modules
(`src/core/security.py`, `src/core/command_service.py`, `src/core/models.py`,
`src/core/history.py`, `app.py`) and proofs about them.

Python strings are modelled as Lean `String`s; the character-level
operations of the source (`str.lower`, `str.strip`, substring containment
via `in`, `str.startswith`) are modelled over `List Char`.
-/

/-- Python `b in a` substring helper: Boolean test that `p` is a prefix of `s`. -/
def startsWithChars : List Char → List Char → Bool
  | [], _ => true
  | _ :: _, [] => false
  | a :: as, b :: bs => a == b && startsWithChars as bs

/-- Python `p in s` for strings: `p` occurs as a contiguous substring of `s`. -/
def containsChars (p : List Char) : List Char → Bool
  | [] => startsWithChars p []
  | b :: bs => startsWithChars p (b :: bs) || containsChars p bs

/-- Python `s.lower()` (ASCII case folding, as exercised by the source). -/
def pyLower (s : String) : List Char :=
  s.data.map Char.toLower

/-- Python `s.strip()`: remove leading and trailing whitespace. -/
def pyStrip (l : List Char) : List Char :=
  ((l.dropWhile Char.isWhitespace).reverse.dropWhile Char.isWhitespace).reverse

/-- `DANGEROUS_PATTERNS` from `src/core/security.py`. -/
def DANGEROUS_PATTERNS : List String := [
  "rm -rf /", "sudo rm", "format", "mkfs", "dd if=/dev/zero",
  "> /dev/", ":(){ :|:& };:", "chmod -r 777 /", "chown -r",
  "rm -rf /*", "sudo shutdown", "sudo reboot", "sudo halt",
  "wipefs", "shred", ">/dev/sd", "cat /dev/urandom >",
  "sudo passwd", "sudo userdel", "sudo usermod", "sudo groupdel",
  "iptables -F", "systemctl stop", "service stop", "kill -9",
  "truncate", ">/etc/", "| sh", "| bash", "curl | sh", "wget | sh", "curl | bash", "wget | bash",
  "bash <(", "eval $(", "$(curl", "$(wget", "base64 -d |", "| base64 -d"]

/-- `is_command_safe` from `src/core/security.py`: a command is safe when its
lowercased text contains none of the dangerous patterns. -/
def is_command_safe (command : String) : Bool :=
  !(DANGEROUS_PATTERNS.any fun pat => containsChars pat.data (pyLower command))

theorem startsWithChars_iff : ∀ p s : List Char, startsWithChars p s = true ↔ p <+: s
  | [], s => by simp [startsWithChars]
  | a :: as, [] => by
    simp [startsWithChars]
  | a :: as, b :: bs => by
    simp [startsWithChars, startsWithChars_iff as bs, List.cons_prefix_cons]

theorem containsChars_iff : ∀ p s : List Char, containsChars p s = true ↔ p <:+: s
  | p, [] => by
    simp [containsChars, startsWithChars_iff]
  | p, b :: bs => by
    simp [containsChars, startsWithChars_iff, containsChars_iff p bs,
      List.infix_cons_iff]

/-- Characterization of the deny decision used by several theorems below. -/
theorem is_command_safe_eq_false_iff (command : String) :
    is_command_safe command = false ↔
      ∃ p ∈ DANGEROUS_PATTERNS, p.data <:+: pyLower command := by
  simp [is_command_safe, List.any_eq_true, containsChars_iff]

/-- `SAFE_COMMANDS` from `src/core/security.py`: the safe-mode allowlist. -/
def SAFE_COMMANDS : List String := [
  "ls", "ll", "la", "dir", "pwd", "find", "locate", "which", "whereis",
  "file", "stat", "du", "df", "mount", "lsblk", "tree",
  "cat", "head", "tail", "less", "more", "grep", "egrep", "fgrep",
  "awk", "sed -n", "cut", "sort", "uniq", "wc", "diff", "comm",
  "ps", "top", "htop", "free", "vmstat", "iostat", "netstat", "ss",
  "lsof", "who", "w", "id", "groups", "uname", "hostname", "uptime",
  "date", "cal", "env", "printenv", "locale", "lscpu", "lspci", "lsusb",
  "ping", "traceroute", "nslookup", "dig", "host", "ifconfig", "ip addr",
  "ip route", "arp", "route",
  "dpkg -l", "rpm -qa", "yum list", "apt list", "brew list",
  "pip list", "pip freeze", "npm list", "gem list",
  "man", "info", "help", "--help", "-h", "--version", "-v",
  "git status", "git log", "git diff", "git branch", "git remote",
  "git show", "git config --list",
  "echo", "printf", "test", "true", "false", "whoami", "basename",
  "dirname", "readlink", "type", "command"]

/-- The shell metacharacters checked inside `is_command_in_safe_mode_whitelist`. -/
def SHELL_METACHARACTERS : List String := ["|", ">", "<", "&&", ";", "`", "$("]

/-- The `safe_pipes` list inside `is_command_in_safe_mode_whitelist`. -/
def SAFE_PIPES : List String := ["| grep", "| egrep", "| fgrep", "| less", "| more",
  "| head", "| tail", "| sort", "| uniq", "| wc"]

/-- The `for safe_cmd in SAFE_COMMANDS` loop of `is_command_in_safe_mode_whitelist`,
with its early `return False` / `return True` exits. -/
def whitelistLoop (command_lower : List Char) : List String → Bool
  | [] => false
  | safe_cmd :: rest =>
    if startsWithChars (safe_cmd.data ++ [' ']) command_lower
        || command_lower == safe_cmd.data then
      if SHELL_METACHARACTERS.any (fun danger => containsChars danger.data command_lower) then
        if !(SAFE_PIPES.any fun pipe => containsChars pipe.data command_lower) then
          false
        else
          true
      else
        true
    else
      whitelistLoop command_lower rest

/-- Body of `is_command_in_safe_mode_whitelist` after the command has been
lowercased and stripped: exact membership first, then the allowlist loop. -/
def safe_mode_whitelist_core (command_lower : List Char) : Bool :=
  if SAFE_COMMANDS.any (fun entry => command_lower == entry.data) then
    true
  else
    whitelistLoop command_lower SAFE_COMMANDS

/-- `is_command_in_safe_mode_whitelist` from `src/core/security.py`. -/
def is_command_in_safe_mode_whitelist (command : String) : Bool :=
  safe_mode_whitelist_core (pyStrip (pyLower command))

/-- The loop either finds an entry matching exactly or as a space-separated
prefix and then applies the metacharacter rule, or returns false. -/
theorem whitelistLoop_eq (cl : List Char) (l : List String) :
    whitelistLoop cl l =
      (l.any (fun e => startsWithChars (e.data ++ [' ']) cl || cl == e.data) &&
        !(SHELL_METACHARACTERS.any (fun danger => containsChars danger.data cl) &&
          !(SAFE_PIPES.any fun pipe => containsChars pipe.data cl))) := by
  induction l with
  | nil => rfl
  | cons e rest ih =>
    by_cases hc : (startsWithChars (e.data ++ [' ']) cl || cl == e.data) = true
    · simp only [whitelistLoop, hc, if_true, List.any_cons, Bool.true_or, Bool.true_and]
      cases hm : SHELL_METACHARACTERS.any (fun danger => containsChars danger.data cl) <;>
        cases hp : SAFE_PIPES.any (fun pipe => containsChars pipe.data cl) <;>
          simp [hm, hp]
    · rw [Bool.not_eq_true] at hc
      simp only [whitelistLoop, hc, if_false, List.any_cons, Bool.false_or]
      exact ih

/-- Bool-level description of the whole whitelist predicate. -/
theorem is_command_in_safe_mode_whitelist_eq (command : String) :
    is_command_in_safe_mode_whitelist command =
      (SAFE_COMMANDS.any (fun entry => pyStrip (pyLower command) == entry.data) ||
        (SAFE_COMMANDS.any (fun e =>
            startsWithChars (e.data ++ [' ']) (pyStrip (pyLower command)) ||
              pyStrip (pyLower command) == e.data) &&
          !(SHELL_METACHARACTERS.any
              (fun danger => containsChars danger.data (pyStrip (pyLower command))) &&
            !(SAFE_PIPES.any fun pipe =>
                containsChars pipe.data (pyStrip (pyLower command)))))) := by
  rw [is_command_in_safe_mode_whitelist, safe_mode_whitelist_core, whitelistLoop_eq]
  cases h : SAFE_COMMANDS.any (fun entry => pyStrip (pyLower command) == entry.data) <;>
    simp [h]

/-- Propositional characterization: membership, or a space-separated allowlist
prefix together with the metacharacter rule. -/
theorem whitelist_characterization (command : String) :
    is_command_in_safe_mode_whitelist command = true ↔
      ((∃ e ∈ SAFE_COMMANDS, pyStrip (pyLower command) = e.data) ∨
        ((∃ e ∈ SAFE_COMMANDS, (e.data ++ [' ']) <+: pyStrip (pyLower command)) ∧
          ((∃ d ∈ SHELL_METACHARACTERS, d.data <:+: pyStrip (pyLower command)) →
            ∃ p ∈ SAFE_PIPES, p.data <:+: pyStrip (pyLower command)))) := by
  rw [is_command_in_safe_mode_whitelist_eq]
  simp only [Bool.or_eq_true, Bool.and_eq_true, List.any_eq_true, List.any_eq_false,
    beq_iff_eq, startsWithChars_iff, containsChars_iff, Bool.not_eq_true',
    Bool.and_eq_false_iff, Bool.not_eq_false', Bool.not_eq_false]
  constructor
  · rintro (⟨e, he, hcl⟩ | ⟨⟨e, he, hpre | hcl⟩, hmeta⟩)
    · exact Or.inl ⟨e, he, hcl⟩
    · refine Or.inr ⟨⟨e, he, hpre⟩, ?_⟩
      intro hm
      rcases hmeta with hall | hp
      · obtain ⟨d, hd, hinf⟩ := hm
        exact absurd hinf (hall d hd)
      · exact hp
    · exact Or.inl ⟨e, he, hcl⟩
  · rintro (⟨e, he, hcl⟩ | ⟨⟨e, he, hpre⟩, himp⟩)
    · exact Or.inl ⟨e, he, hcl⟩
    · refine Or.inr ⟨⟨e, he, Or.inl hpre⟩, ?_⟩
      by_cases hm : ∃ d ∈ SHELL_METACHARACTERS, d.data <:+: pyStrip (pyLower command)
      · exact Or.inr (himp hm)
      · refine Or.inl ?_
        intro d hd hinf
        exact hm ⟨d, hd, hinf⟩

/-- `high_risk_terms` from `estimate_command_risk` in `src/core/security.py`. -/
def HIGH_RISK_TERMS : List String :=
  ["rm", "delete", "sudo", "chmod", "chown", "format", "mkfs"]

/-- `estimate_command_risk` from `src/core/security.py`. -/
def estimate_command_risk (command : String) : String :=
  if HIGH_RISK_TERMS.any (fun term => containsChars term.data (pyLower command)) then
    "HIGH"
  else
    "LOW"

/-- `CommandStatus` from `src/core/models.py`. -/
inductive CommandStatus where
  | success
  | error
  | warning
deriving DecidableEq, Repr

/-- Result of a completed `subprocess.run` call: captured stdout, stderr and
the process return code. -/
structure ProcessResult where
  stdout : String
  stderr : String
  returncode : Int
deriving DecidableEq, Repr

/-- Behaviour of the `subprocess.run` boundary in `execute_command`: the
process completes, times out, or raises some other exception. -/
inductive RunResult where
  | completed (r : ProcessResult)
  | timedOut
  | failed (message : String)
deriving DecidableEq, Repr

/-- Ambient process information read by the dry-run branch of
`execute_command` (`Path.cwd()`, `os.getlogin()`, `$SHELL`). -/
structure ExecutionEnv where
  cwd : String
  login : String
  shell : String
deriving DecidableEq, Repr

/-- The safe-mode rejection message built in `execute_command`. -/
def safe_mode_block_message (command : String) : String :=
  "Command blocked by SAFE MODE\n\nThe command '" ++ command ++
    "' is not in the safe mode whitelist.\n\n" ++
    "Safe mode only allows read-only commands that cannot modify the system.\n" ++
    "To execute this command, disable safe mode.\n\n" ++
    "Allowed command types in safe mode:\n" ++
    "- File listing and reading (ls, cat, grep, etc.)\n" ++
    "- System information (ps, df, uname, etc.)\n" ++
    "- Network diagnostics (ping, dig, etc.)\n" ++
    "- Package listings (pip list, npm list, etc.)\n" ++
    "- Git read operations (git status, git log, etc.)"

/-- Text of the dry-run report that follows the echoed command. -/
def dry_run_tail (env : ExecutionEnv) (command : String) : String :=
  "\n\nWorking directory: " ++ env.cwd ++
    "\nUser permissions: " ++ env.login ++
    "\nShell: " ++ env.shell ++
    "\n\nSafety check: " ++ (if is_command_safe command then "PASSED" else "FAILED") ++
    "\nEstimated risk: " ++ estimate_command_risk command ++
    "\n\nTo actually execute this command, disable dry-run mode."

/-- The dry-run report built in `execute_command`. -/
def dry_run_output (env : ExecutionEnv) (command : String) : String :=
  "[DRY RUN MODE - Command NOT executed]\n\nCommand that would be executed:\n$ " ++
    command ++ dry_run_tail env command

/-- `execute_command` from `src/core/command_service.py`.  The outcome of the
`subprocess.run` boundary is passed in as `run`; it is consulted only on the
real-execution path. -/
def execute_command (env : ExecutionEnv) (run : RunResult) (command : String)
    (timeout : Int) (dry_run : Bool) (safe_mode : Bool) : String × CommandStatus :=
  if !is_command_safe command then
    ("Command blocked for safety", CommandStatus.warning)
  else if safe_mode && !is_command_in_safe_mode_whitelist command then
    (safe_mode_block_message command, CommandStatus.warning)
  else if dry_run then
    (dry_run_output env command, CommandStatus.success)
  else
    match run with
    | RunResult.completed r =>
      if r.stderr ≠ "" ∧ r.returncode ≠ 0 then
        ("Error:\n" ++ r.stderr ++ "\n\nOutput:\n" ++ r.stdout, CommandStatus.error)
      else if r.stderr ≠ "" then
        ("Warnings:\n" ++ r.stderr ++ "\n\nOutput:\n" ++ r.stdout, CommandStatus.warning)
      else if r.stdout ≠ "" then
        (r.stdout, CommandStatus.success)
      else
        ("Command executed successfully (no output)", CommandStatus.success)
    | RunResult.timedOut =>
      ("Command timed out after " ++ toString timeout ++ " seconds", CommandStatus.error)
    | RunResult.failed message =>
      ("Execution failed: " ++ message, CommandStatus.error)

/-- `CommandEntry` from `src/core/models.py` (all fields, after dataclass
initialisation). -/
structure CommandEntry where
  timestamp : String
  prompt : String
  command : String
  output : String
  status : CommandStatus
deriving DecidableEq, Repr

/-- Python `output[:500] + "..."` truncation applied by both `__post_init__`
methods when the output exceeds 500 characters. -/
def truncate_stored_output (output : String) : String :=
  if output.length > 500 then
    String.mk (output.data.take 500) ++ "..."
  else
    output

/-- Constructing a `CommandEntry`, including its `__post_init__` truncation
(`src/core/models.py`). -/
def CommandEntry.make (timestamp prompt command output : String)
    (status : CommandStatus) : CommandEntry :=
  { timestamp := timestamp, prompt := prompt, command := command,
    output := truncate_stored_output output, status := status }

/-- `add_to_history` from `src/core/history.py`: appends a freshly constructed
entry.  The wall-clock timestamp is passed in explicitly. -/
def add_to_history (history : List CommandEntry) (timestamp prompt command output : String)
    (status : CommandStatus) : List CommandEntry :=
  history ++ [CommandEntry.make timestamp prompt command output status]

/-- `CommandStatus` from `app.py` (the UX variant adds INFO and LOADING). -/
inductive UXCommandStatus where
  | success
  | error
  | warning
  | info
  | loading
deriving DecidableEq, Repr

/-- `CommandEntry` from `app.py`, which also keeps a `full_output` field. -/
structure UXCommandEntry where
  timestamp : String
  date : String
  prompt : String
  command : String
  output : String
  status : UXCommandStatus
  full_output : String
deriving DecidableEq, Repr

/-- Constructing an `app.py` `CommandEntry`, including its `__post_init__`:
`full_output` defaults to the untruncated output, then the stored output is
truncated to 500 characters plus the `"..."` marker. -/
def UXCommandEntry.make (timestamp date prompt command output : String)
    (status : UXCommandStatus) (full_output : String) : UXCommandEntry :=
  { timestamp := timestamp, date := date, prompt := prompt, command := command,
    output := truncate_stored_output output, status := status,
    full_output := if full_output = "" then output else full_output }

/-- Python `lst[-n:]` for a non-negative `n`: the last `n` elements, except
that `lst[-0:]` is the whole list (since `-0 == 0`). -/
def pySliceLast (n : Nat) (l : List α) : List α :=
  if n = 0 then l else l.drop (l.length - n)

/-- `AppState.add_command` from `app.py`: append, then cut back to the last
`max_history_entries` entries when the cap is exceeded. -/
def add_command (max_history_entries : Nat) (history : List UXCommandEntry)
    (entry : UXCommandEntry) : List UXCommandEntry :=
  let appended := history ++ [entry]
  if appended.length > max_history_entries then
    pySliceLast max_history_entries appended
  else
    appended

/-- C2: `is_command_safe` returns false iff the lowercased command contains at
least one denylist substring as a literal substring; otherwise it returns true. -/
theorem is_command_safe_false_iff_denylist_substring (command : String) :
    is_command_safe command = false ↔
      ∃ p ∈ DANGEROUS_PATTERNS, p.data <:+: pyLower command :=
  is_command_safe_eq_false_iff command

/-- C1: for every command whose lowercased text contains a denylist substring,
and for every combination of the dry_run and safe_mode flags (and every runner
and environment), `execute_command` returns ("Command blocked for safety",
WARNING) — never a dry-run preview, a safe-mode message, or a real execution. -/
theorem denylisted_command_always_blocked (env : ExecutionEnv) (run : RunResult)
    (command : String) (timeout : Int) (dry_run safe_mode : Bool)
    (h : ∃ p ∈ DANGEROUS_PATTERNS, p.data <:+: pyLower command) :
    execute_command env run command timeout dry_run safe_mode =
      ("Command blocked for safety", CommandStatus.warning) := by
  have hs : is_command_safe command = false := (is_command_safe_eq_false_iff command).mpr h
  simp [execute_command, hs]

theorem denylisted_command_always_blocked_witness :
    execute_command ⟨"/home", "user", "/bin/sh"⟩ RunResult.timedOut
        "sudo rm -rf /tmp" 30 true true =
      ("Command blocked for safety", CommandStatus.warning) :=
  denylisted_command_always_blocked _ _ _ _ _ _ (by decide)

/-- No safe-mode allowlist entry contains a shell metacharacter, so the exact
membership branch of the whitelist can never fire for a command containing one. -/
theorem safe_commands_have_no_metachars :
    ∀ e ∈ SAFE_COMMANDS, ∀ d ∈ SHELL_METACHARACTERS, ¬ d.data <:+: e.data := by
  decide

/-- C3 counterexample: the command "ls -la > /tmp/out | grep foo" contains the
unrecognized metacharacter usage `>` yet is ACCEPTED by
`is_command_in_safe_mode_whitelist`, because the recognized safe pipe
"| grep" elsewhere in the same string satisfies the check; the claim requires
this command to be rejected. -/
theorem whitelist_accepts_unrecognized_metachar_with_safe_pipe :
    is_command_in_safe_mode_whitelist "ls -la > /tmp/out | grep foo" = true := by
  decide

/-- C3 (amended): if a command whose trimmed lowercased text starts with an
allowlist entry plus a space contains some shell metacharacter and contains no
recognized safe-pipe substring anywhere in the string, the whitelist rejects
it.  (The source checks the safe-pipe list against the whole command, so one
recognized safe pipe anywhere makes every metacharacter occurrence accepted.) -/
theorem whitelist_rejects_metachar_without_safe_pipe (command : String)
    (hpre : ∃ e ∈ SAFE_COMMANDS, (e.data ++ [' ']) <+: pyStrip (pyLower command))
    (hmeta : ∃ d ∈ SHELL_METACHARACTERS, d.data <:+: pyStrip (pyLower command))
    (hnopipe : ∀ p ∈ SAFE_PIPES, ¬ p.data <:+: pyStrip (pyLower command)) :
    is_command_in_safe_mode_whitelist command = false := by
  cases hwl : is_command_in_safe_mode_whitelist command
  · rfl
  · exfalso
    rcases (whitelist_characterization command).mp hwl with ⟨e, he, hcl⟩ | ⟨_, himp⟩
    · obtain ⟨d, hd, hinf⟩ := hmeta
      rw [hcl] at hinf
      exact safe_commands_have_no_metachars e he d hd hinf
    · obtain ⟨p, hp, hinf⟩ := himp hmeta
      exact hnopipe p hp hinf

theorem whitelist_rejects_metachar_without_safe_pipe_witness :
    is_command_in_safe_mode_whitelist "ls -la > /tmp/out" = false :=
  whitelist_rejects_metachar_without_safe_pipe _ (by decide) (by decide) (by decide)

/-- C4: for a non-denylisted command (with safe mode passing or disabled),
dry-run mode yields SUCCESS with an output containing the literal command, and
the result is independent of the runner — the Process Runner is never
consulted on this branch. -/
theorem dry_run_never_executes (env : ExecutionEnv) (run run' : RunResult)
    (command : String) (timeout : Int) (safe_mode : Bool)
    (hsafe : is_command_safe command = true)
    (hwl : safe_mode = false ∨ is_command_in_safe_mode_whitelist command = true) :
    (execute_command env run command timeout true safe_mode).2 = CommandStatus.success ∧
      command.data <:+: (execute_command env run command timeout true safe_mode).1.data ∧
      execute_command env run command timeout true safe_mode =
        execute_command env run' command timeout true safe_mode := by
  have hgate : (safe_mode && !is_command_in_safe_mode_whitelist command) = false := by
    rcases hwl with h | h <;> simp [h]
  have hexec : ∀ rr : RunResult, execute_command env rr command timeout true safe_mode =
      (dry_run_output env command, CommandStatus.success) := by
    intro rr
    simp [execute_command, hsafe, hgate]
  refine ⟨by rw [hexec run], ?_, by rw [hexec run, hexec run']⟩
  rw [hexec run]
  show command.data <:+: (dry_run_output env command).data
  refine ⟨("[DRY RUN MODE - Command NOT executed]\n\nCommand that would be executed:\n$ " :
      String).data, (dry_run_tail env command).data, ?_⟩
  rw [dry_run_output, String.data_append, String.data_append]

theorem dry_run_never_executes_witness :
    (execute_command ⟨"/home", "user", "/bin/sh"⟩ (RunResult.completed ⟨"out", "", 0⟩)
        "ls" 30 true false).2 = CommandStatus.success ∧
      "ls".data <:+: (execute_command ⟨"/home", "user", "/bin/sh"⟩
        (RunResult.completed ⟨"out", "", 0⟩) "ls" 30 true false).1.data ∧
      execute_command ⟨"/home", "user", "/bin/sh"⟩ (RunResult.completed ⟨"out", "", 0⟩)
          "ls" 30 true false =
        execute_command ⟨"/home", "user", "/bin/sh"⟩ RunResult.timedOut "ls" 30 true false :=
  dry_run_never_executes _ _ _ _ _ _ (by decide) (Or.inl rfl)

/-- C5: the whitelist accepts exactly the commands whose trimmed lowercased
text equals an allowlist entry or starts with an entry followed by a space
(subject to the metacharacter rule); a loose prefix does not match: "pwd" is
accepted while "pwdx" is rejected. -/
theorem whitelist_prefix_matching (command : String) :
    (is_command_in_safe_mode_whitelist command = true ↔
      ((∃ e ∈ SAFE_COMMANDS, pyStrip (pyLower command) = e.data) ∨
        ((∃ e ∈ SAFE_COMMANDS, (e.data ++ [' ']) <+: pyStrip (pyLower command)) ∧
          ((∃ d ∈ SHELL_METACHARACTERS, d.data <:+: pyStrip (pyLower command)) →
            ∃ p ∈ SAFE_PIPES, p.data <:+: pyStrip (pyLower command))))) ∧
      is_command_in_safe_mode_whitelist "pwd" = true ∧
      is_command_in_safe_mode_whitelist "pwdx" = false :=
  ⟨whitelist_characterization command, by decide, by decide⟩

/-- Lowercasing is the identity on whitespace characters. -/
theorem toLower_of_whitespace {c : Char} (h : c.isWhitespace = true) :
    c.toLower = c := by
  revert h
  simp only [Char.isWhitespace, Bool.or_eq_true, decide_eq_true_eq]
  rintro (((rfl | rfl) | rfl) | rfl) <;> decide

/-- C6: a command that is empty or consists only of whitespace is never in the
safe-mode whitelist. -/
theorem whitelist_rejects_whitespace_only (command : String)
    (h : ∀ c ∈ command.data, c.isWhitespace = true) :
    is_command_in_safe_mode_whitelist command = false := by
  have hmap : ∀ c ∈ pyLower command, c.isWhitespace = true := by
    intro c hc
    rcases List.mem_map.mp hc with ⟨a, ha, rfl⟩
    rw [toLower_of_whitespace (h a ha)]
    exact h a ha
  have hdrop : (pyLower command).dropWhile Char.isWhitespace = [] :=
    List.dropWhile_eq_nil_iff.mpr hmap
  have hstrip : pyStrip (pyLower command) = [] := by
    rw [pyStrip, hdrop]
    rfl
  unfold is_command_in_safe_mode_whitelist
  rw [hstrip]
  decide

theorem whitelist_rejects_whitespace_only_witness :
    is_command_in_safe_mode_whitelist "   " = false :=
  whitelist_rejects_whitespace_only _ (by decide)

/-- C7: mapping of a completed process run to the outcome: non-zero exit code
with non-empty stderr gives ERROR; zero exit code with non-empty stderr gives
WARNING; zero exit code with empty stderr gives stdout (or the fixed no-output
sentinel when stdout is empty) with SUCCESS. -/
theorem runner_result_mapping (env : ExecutionEnv) (r : ProcessResult)
    (command : String) (timeout : Int) (safe_mode : Bool)
    (hsafe : is_command_safe command = true)
    (hwl : safe_mode = false ∨ is_command_in_safe_mode_whitelist command = true) :
    (r.returncode ≠ 0 → r.stderr ≠ "" →
      execute_command env (RunResult.completed r) command timeout false safe_mode =
        ("Error:\n" ++ r.stderr ++ "\n\nOutput:\n" ++ r.stdout, CommandStatus.error)) ∧
    (r.returncode = 0 → r.stderr ≠ "" →
      execute_command env (RunResult.completed r) command timeout false safe_mode =
        ("Warnings:\n" ++ r.stderr ++ "\n\nOutput:\n" ++ r.stdout, CommandStatus.warning)) ∧
    (r.returncode = 0 → r.stderr = "" → r.stdout ≠ "" →
      execute_command env (RunResult.completed r) command timeout false safe_mode =
        (r.stdout, CommandStatus.success)) ∧
    (r.returncode = 0 → r.stderr = "" → r.stdout = "" →
      execute_command env (RunResult.completed r) command timeout false safe_mode =
        ("Command executed successfully (no output)", CommandStatus.success)) := by
  have hgate : (safe_mode && !is_command_in_safe_mode_whitelist command) = false := by
    rcases hwl with h | h <;> simp [h]
  refine ⟨?_, ?_, ?_, ?_⟩
  · intro h1 h2
    simp [execute_command, hsafe, hgate, h1, h2]
  · intro h1 h2
    simp [execute_command, hsafe, hgate, h1, h2]
  · intro h1 h2 h3
    simp [execute_command, hsafe, hgate, h1, h2, h3]
  · intro h1 h2 h3
    simp [execute_command, hsafe, hgate, h1, h2, h3]

theorem runner_result_mapping_witness :
    ((1 : Int) ≠ 0 → "boom" ≠ "" →
      execute_command ⟨"/home", "user", "/bin/sh"⟩
          (RunResult.completed ⟨"Output text", "boom", 1⟩) "echo hi" 30 false false =
        ("Error:\n" ++ "boom" ++ "\n\nOutput:\n" ++ "Output text", CommandStatus.error)) ∧
    ((1 : Int) = 0 → "boom" ≠ "" →
      execute_command ⟨"/home", "user", "/bin/sh"⟩
          (RunResult.completed ⟨"Output text", "boom", 1⟩) "echo hi" 30 false false =
        ("Warnings:\n" ++ "boom" ++ "\n\nOutput:\n" ++ "Output text", CommandStatus.warning)) ∧
    ((1 : Int) = 0 → "boom" = "" → "Output text" ≠ "" →
      execute_command ⟨"/home", "user", "/bin/sh"⟩
          (RunResult.completed ⟨"Output text", "boom", 1⟩) "echo hi" 30 false false =
        ("Output text", CommandStatus.success)) ∧
    ((1 : Int) = 0 → "boom" = "" → "Output text" = "" →
      execute_command ⟨"/home", "user", "/bin/sh"⟩
          (RunResult.completed ⟨"Output text", "boom", 1⟩) "echo hi" 30 false false =
        ("Command executed successfully (no output)", CommandStatus.success)) :=
  runner_result_mapping ⟨"/home", "user", "/bin/sh"⟩ ⟨"Output text", "boom", 1⟩
    "echo hi" 30 false (by decide) (Or.inl rfl)

/-- C8: a completed run with a non-zero exit code but empty stderr is reported
as SUCCESS (stdout, or the no-output sentinel when stdout is empty); the exit
code alone never produces an ERROR or WARNING outcome. -/
theorem nonzero_exit_empty_stderr_is_success (env : ExecutionEnv) (r : ProcessResult)
    (command : String) (timeout : Int) (safe_mode : Bool)
    (hsafe : is_command_safe command = true)
    (hwl : safe_mode = false ∨ is_command_in_safe_mode_whitelist command = true)
    (hrc : r.returncode ≠ 0) (hse : r.stderr = "") :
    execute_command env (RunResult.completed r) command timeout false safe_mode =
      (if r.stdout = "" then "Command executed successfully (no output)" else r.stdout,
        CommandStatus.success) := by
  have hgate : (safe_mode && !is_command_in_safe_mode_whitelist command) = false := by
    rcases hwl with h | h <;> simp [h]
  by_cases hout : r.stdout = "" <;>
    simp [execute_command, hsafe, hgate, hse, hout]

theorem nonzero_exit_empty_stderr_is_success_witness :
    execute_command ⟨"/home", "user", "/bin/sh"⟩ (RunResult.completed ⟨"", "", 2⟩)
        "ls" 30 false false =
      ("Command executed successfully (no output)", CommandStatus.success) :=
  nonzero_exit_empty_stderr_is_success ⟨"/home", "user", "/bin/sh"⟩ ⟨"", "", 2⟩
    "ls" 30 false (by decide) (Or.inl rfl) (by decide) rfl

/-- C9: an entry created from a 600-character output stores an output field of
exactly 503 characters ending in "..." in both entry models, while the
`full_output` field of the `app.py` model keeps all 600 characters. -/
theorem history_truncation_600 (timestamp date prompt command output : String)
    (status : CommandStatus) (uxstatus : UXCommandStatus)
    (h : output.length = 600) :
    (CommandEntry.make timestamp prompt command output status).output.length = 503 ∧
      "...".data <:+ (CommandEntry.make timestamp prompt command output status).output.data ∧
      (UXCommandEntry.make timestamp date prompt command output
        uxstatus "").output.length = 503 ∧
      "...".data <:+
        (UXCommandEntry.make timestamp date prompt command output uxstatus "").output.data ∧
      (UXCommandEntry.make timestamp date prompt command output uxstatus "").full_output
        = output := by
  have hgt : output.length > 500 := by omega
  have hdata : (truncate_stored_output output).data = output.data.take 500 ++ "...".data := by
    rw [truncate_stored_output, if_pos hgt, String.data_append]
  have hl : output.data.length = 600 := h
  have hlen : (truncate_stored_output output).length = 503 := by
    show (truncate_stored_output output).data.length = 503
    rw [hdata, List.length_append, List.length_take, hl]
    decide
  have hsuf : "...".data <:+ (truncate_stored_output output).data :=
    ⟨output.data.take 500, hdata.symm⟩
  refine ⟨hlen, hsuf, hlen, hsuf, ?_⟩
  simp [UXCommandEntry.make]

theorem history_truncation_600_witness :
    (CommandEntry.make "12:00:00" "list" "ls" (String.mk (List.replicate 600 'a'))
        CommandStatus.success).output.length = 503 ∧
      "...".data <:+ (CommandEntry.make "12:00:00" "list" "ls"
        (String.mk (List.replicate 600 'a')) CommandStatus.success).output.data ∧
      (UXCommandEntry.make "12:00:00" "2024-01-01" "list" "ls"
        (String.mk (List.replicate 600 'a')) UXCommandStatus.success "").output.length = 503 ∧
      "...".data <:+ (UXCommandEntry.make "12:00:00" "2024-01-01" "list" "ls"
        (String.mk (List.replicate 600 'a')) UXCommandStatus.success "").output.data ∧
      (UXCommandEntry.make "12:00:00" "2024-01-01" "list" "ls"
          (String.mk (List.replicate 600 'a')) UXCommandStatus.success "").full_output
        = String.mk (List.replicate 600 'a') :=
  history_truncation_600 "12:00:00" "2024-01-01" "list" "ls"
    (String.mk (List.replicate 600 'a')) CommandStatus.success UXCommandStatus.success
    (by
      show (List.replicate 600 'a').length = 600
      rw [List.length_replicate])

/-- A concrete history entry used by the cap theorems below. -/
def sampleEntry : UXCommandEntry :=
  UXCommandEntry.make "12:00:00" "2024-01-01" "list" "ls" "out" UXCommandStatus.success ""

/-- C10 counterexample: with the configured maximum set to 0, the Python slice
`history[-0:]` in `AppState.add_command` keeps the whole list, so after an
append the log length is 1 and exceeds the cap of 0; the claim requires the
length never to exceed the configured maximum. -/
theorem add_command_zero_cap_exceeded :
    0 < (add_command 0 [] sampleEntry).length := by
  decide

/-- C10 (amended): for every positive configured maximum, after `add_command`
the log length never exceeds the cap; the result is a suffix of the appended
log (so the oldest entries are the ones evicted, and the most recent entries
are kept in insertion order); the whole appended log is kept when it fits, and
exactly the oldest surplus entries are dropped when it does not. -/
theorem add_command_cap_invariant (max_history_entries : Nat)
    (hpos : 0 < max_history_entries)
    (history : List UXCommandEntry) (entry : UXCommandEntry) :
    (add_command max_history_entries history entry).length ≤ max_history_entries ∧
      add_command max_history_entries history entry <:+ history ++ [entry] ∧
      (history.length + 1 ≤ max_history_entries →
        add_command max_history_entries history entry = history ++ [entry]) ∧
      (max_history_entries < history.length + 1 →
        add_command max_history_entries history entry =
          (history ++ [entry]).drop (history.length + 1 - max_history_entries)) := by
  have hne : max_history_entries ≠ 0 := Nat.pos_iff_ne_zero.mp hpos
  have hlen : (history ++ [entry]).length = history.length + 1 := by
    simp
  by_cases hgt : max_history_entries < (history ++ [entry]).length
  · have hadd : add_command max_history_entries history entry =
        (history ++ [entry]).drop ((history ++ [entry]).length - max_history_entries) := by
      simp only [add_command, pySliceLast]
      rw [if_pos hgt, if_neg hne]
    rw [hlen] at hgt
    refine ⟨?_, ?_, ?_, ?_⟩
    · rw [hadd, List.length_drop, hlen]
      omega
    · rw [hadd]
      exact List.drop_suffix _ _
    · intro hle
      omega
    · intro _
      rw [hadd, hlen]
  · have hadd : add_command max_history_entries history entry = history ++ [entry] := by
      simp only [add_command]
      rw [if_neg hgt]
    rw [hlen] at hgt
    refine ⟨?_, ?_, fun _ => hadd, ?_⟩
    · rw [hadd, hlen]
      omega
    · rw [hadd]
    · intro hlt
      omega

theorem add_command_cap_invariant_witness :
    (add_command 2 [sampleEntry, sampleEntry] sampleEntry).length ≤ 2 ∧
      add_command 2 [sampleEntry, sampleEntry] sampleEntry <:+
        [sampleEntry, sampleEntry] ++ [sampleEntry] ∧
      ([sampleEntry, sampleEntry].length + 1 ≤ 2 →
        add_command 2 [sampleEntry, sampleEntry] sampleEntry =
          [sampleEntry, sampleEntry] ++ [sampleEntry]) ∧
      (2 < [sampleEntry, sampleEntry].length + 1 →
        add_command 2 [sampleEntry, sampleEntry] sampleEntry =
          ([sampleEntry, sampleEntry] ++ [sampleEntry]).drop
            ([sampleEntry, sampleEntry].length + 1 - 2)) :=
  add_command_cap_invariant 2 (by decide) [sampleEntry, sampleEntry] sampleEntry
